import Mathlib

/-!
Verification development for the Langfuse v3 filter pipeline
(`examples/filters/langfuse_v3_filter_pipeline.py`).

The plugin is a request/response hook pair (`inlet`, `outlet`) that keeps
four process-wide dictionaries keyed by conversation id (`chat_traces`,
`pending_chats`, `model_names`, and the lazily created `_input_logged` set)
and calls the Langfuse tracing client at the two lifecycle points.

Modelling conventions:
* Python dicts used as string-keyed maps become association lists with
  `lookupA` / `insertA` / `eraseA`; a fresh map is `[]`.
* `None` becomes `Option.none`; a dict key that may be absent becomes an
  `Option` field.  The edge case of a key present with value `None` is
  collapsed into "absent" except where the code can distinguish the two
  (`Metadata.model_id`, which the outlet may set to Python `None`, is an
  `Option (Option String)`).
* Python truthiness on strings (`if s:`) is `truthyO` (absent and `""` are
  falsy); `a or b` on optional strings and ints is `pyStrOr2` / `pyIntOr`
  (`None` and `0` / `""` are falsy).
* `uuid.uuid4()` is an explicit `fresh : String` argument.
* A hook that raises (the unguarded `body["messages"]` lookups) returns
  `none` as its body component, paired with the state as mutated up to the
  raise point.
* Backend calls are recorded in an append-only `events` journal; they are
  modelled as succeeding, except for the trace-creation `try` block
  (lines 204-222) whose outcome is the explicit `createOk : Bool`
  argument, mirroring the `except`/`finally` structure of the source.
-/

/-- Association-list lookup for a Python dict (`d.get(k)` / `k in d`). -/
def lookupA {α : Type} : List (String × α) → String → Option α
  | [], _ => none
  | (k2, v) :: rest, k => if k2 = k then some v else lookupA rest k

/-- Python `del d[k]` / `d.pop(k, None)`: the key is removed. -/
def eraseA {α : Type} (m : List (String × α)) (k : String) : List (String × α) :=
  m.filter (fun kv => kv.1 ≠ k)

/-- Python `d[k] = v`: the key now maps to `v` and to nothing else. -/
def insertA {α : Type} (m : List (String × α)) (k : String) (v : α) :
    List (String × α) :=
  eraseA m k ++ [(k, v)]

/-- Python truthiness of an optional string: `None` and `""` are falsy. -/
def truthyO : Option String → Bool
  | some s => !(s == "")
  | none => false

/-- Python `a or b` where `a` is an optional string and `b` a string
(used for `user_email or pending_user_email or "anonymous"` and
`session_id or chat_id`). -/
def pyStrOr2 (a : Option String) (b : String) : String :=
  match a with
  | some s => if s = "" then b else s
  | none => b

/-- Python `a or b` on optional integers (`info.get("prompt_eval_count") or
info.get("prompt_tokens")`): `None` and `0` are falsy. -/
def pyIntOr (a b : Option Int) : Option Int :=
  match a with
  | some v => if v = 0 then b else some v
  | none => b

/-- Provider usage fields of an assistant message (`message["usage"]` when it
is a dict; a missing or non-dict `usage` is `none` at the `Message` level,
since both make the extraction yield no counts). -/
structure UsageInfo where
  prompt_eval_count : Option Int := none
  prompt_tokens : Option Int := none
  eval_count : Option Int := none
  completion_tokens : Option Int := none
  deriving DecidableEq, Repr

/-- The usage dict attached to a generation:
`{"input": ..., "output": ..., "unit": "TOKENS"}` (line 249). -/
structure UsageRec where
  input : Int
  output : Int
  unit : String
  deriving DecidableEq, Repr

/-- One chat message: the fields the filter reads. -/
structure Message where
  role : String
  content : String
  usage : Option UsageInfo := none
  deriving DecidableEq, Repr

/-- The `metadata` dict of a body: the keys the filter reads or writes as
named fields, every other key untouched by the code in `rest`.
`model_info_name` is `metadata.get("model", {}).get("name")` when
`metadata["model"]` is a dict carrying `"name"` (lines 130, 135-136);
a non-dict or nameless `model` entry behaves exactly like an absent one.
`model_id` is written by the outlet (line 274) and may be set to Python
`None`, hence the nested `Option`. -/
structure Metadata where
  chat_id : Option String := none
  session_id : Option String := none
  task : Option String := none
  model_info_name : Option String := none
  model_id : Option (Option String) := none
  model_name : Option String := none
  rest : List (String × String) := []
  deriving DecidableEq, Repr

/-- A request/response body: `model`, `messages` and `metadata` are the keys
the filter touches (`none` = key absent; `body["messages"]` on an absent
key raises). -/
structure Body where
  model : Option String := none
  messages : Option (List Message) := none
  metadata : Option Metadata := none
  deriving DecidableEq, Repr

/-- The `user` argument of the hooks; `email` is `user.get("email")`. -/
structure User where
  email : Option String := none
  deriving DecidableEq, Repr

/-- `self.model_names[chat_id]`: the `"id"` key is always present (possibly
holding Python `None`), the `"name"` key only once observed. -/
structure ModelIdentity where
  id : Option String := none
  name : Option String := none
  deriving DecidableEq, Repr

/-- `self.pending_chats[chat_id]` (lines 141-146). -/
structure PendingTurn where
  input : List Message
  metadata : Metadata
  user : Option User
  model_id : Option String
  deriving DecidableEq, Repr

/-- The metadata mapping sent to the backend, `{**metadata, "user_id": ...,
"session_id": ..., "interface": "open-webui", "task": ...}` (lines 196-202
and 253-259): the spread base plus the four overriding keys. -/
structure TraceMeta where
  base : Metadata
  user_id : String
  session_id : String
  interface : String
  task : String
  deriving DecidableEq, Repr

/-- The span object returned by `langfuse.start_span` and stored in
`self.chat_traces[chat_id]`, carrying everything this code ever set on it:
the creation arguments (lines 205-209), and the trace-level fields passed
to `update_trace` (lines 210-215, 261-265). `tid` numbers creations so
distinct traces are distinguishable. -/
structure TraceHandle where
  tid : Nat
  name : String
  input : List Message
  meta : TraceMeta
  trace_user_id : String
  trace_session_id : String
  tags : List String
  output : Option String := none
  deriving DecidableEq, Repr

/-- Reading `getattr(trace, "user_id", None)` (line 177).  The langfuse v3
span wrapper does not store a `user_id` Python attribute: `update_trace`
forwards trace fields to the underlying OpenTelemetry span without setting
them on the wrapper object, so the attribute is absent and the `getattr`
default `None` is returned. -/
def spanUserIdAttr (_ : TraceHandle) : Option String := none

/-- Journal of backend calls, in chronological order.  `cid` on
`inputSpan` and the fields of `traceCreated` record the values in scope at
the call site, so that properties can be stated per conversation. -/
inductive BackendEvent where
  | traceCreated (tid : Nat) (cid : String) (userId : String)
  | traceEnded (tid : Nat)
  | inputSpan (tid : Nat) (cid : String) (input : List Message)
  | generation (tid : Nat) (model : Option String) (usage : Option UsageRec)
  deriving DecidableEq, Repr

/-- The valve fields that influence the correlator logic (the credential,
host and debug valves only affect client construction and logging). -/
structure Valves where
  insert_tags : Bool := true
  use_model_name_instead_of_id_for_generation : Bool := false
  deriving DecidableEq, Repr

/-- The mutable state of one `Pipeline` object.  `langfuse_on` is
`self.langfuse is not None`; `input_logged = none` models the `_input_logged`
attribute not existing yet (it is created lazily, lines 227 and 235). -/
structure PipelineState where
  valves : Valves
  langfuse_on : Bool
  chat_traces : List (String × TraceHandle)
  pending_chats : List (String × PendingTurn)
  model_names : List (String × ModelIdentity)
  input_logged : Option (List String)
  next_tid : Nat
  events : List BackendEvent
  deriving DecidableEq, Repr

/-- State right after `__init__` (plus the `set_langfuse` outcome `lfOn`). -/
def initState (v : Valves) (lfOn : Bool) : PipelineState :=
  { valves := v, langfuse_on := lfOn, chat_traces := [], pending_chats := [],
    model_names := [], input_logged := none, next_tid := 0, events := [] }

/-- `get_last_assistant_message_obj` (source lines 20-25): last message with
role `"assistant"`; the `{}` returned when none exists is falsy, hence
`none` here. -/
def getLastAssistantMessageObj (messages : List Message) : Option Message :=
  messages.reverse.find? (fun m => m.role == "assistant")

/-- Modelled from the spec: `get_last_assistant_message` is imported from
`utils.pipelines.main`, host-framework code not under `src/`.  Per the
spec, the outbound event's "last message is the assistant's reply" and the
trace output is "the assistant's reply text", so it yields the content of
the last assistant message (empty when there is none). -/
def getLastAssistantMessage (messages : List Message) : String :=
  ((getLastAssistantMessageObj messages).map Message.content).getD ""

/-- `_build_tags` (lines 104-108). -/
def buildTags (v : Valves) (taskName : String) : List String :=
  if v.insert_tags ∧ taskName ≠ "user_response" ∧ taskName ≠ "llm_response" then
    ["open-webui", taskName]
  else
    ["open-webui"]

/-- Inlet conversation-id resolution (lines 117-123):
`chat_id = metadata.get("chat_id", str(uuid.uuid4()))` then the
`"local"`-with-truthy-`session_id` substitution. -/
def inletCid (md : Metadata) (fresh : String) : String :=
  let chatId0 := md.chat_id.getD fresh
  match md.session_id with
  | some s => if chatId0 = "local" ∧ s ≠ "" then "temporary-session-" ++ s else chatId0
  | none => chatId0

/-- Outlet conversation-id resolution (lines 157-166): no uuid default, the
same `"local"` substitution, then `if not chat_id: return` — a missing or
falsy (empty) chat id resolves to `none`. -/
def outletCidMd (md : Metadata) : Option String :=
  let chatId0 := md.chat_id
  let chatId1 : Option String :=
    match chatId0, md.session_id with
    | some c, some s =>
        some (if c = "local" ∧ s ≠ "" then "temporary-session-" ++ s else c)
    | some c, none => some c
    | none, _ => none
  match chatId1 with
  | some c => if c = "" then none else some c
  | none => none

/-- Outlet conversation-id resolution from a body
(`metadata = body.get("metadata", {})`, line 157). -/
def outletCid (body : Body) : Option String :=
  outletCidMd (body.metadata.getD {})

/-- Usage extraction (lines 240-249): from the last assistant message's
`usage` dict, `prompt_eval_count or prompt_tokens` and
`eval_count or completion_tokens` under Python falsiness; a usage record is
built only when both resolve to non-`None`. -/
def extractUsage (messages : List Message) : Option UsageRec :=
  match getLastAssistantMessageObj messages with
  | none => none
  | some m =>
    match m.usage with
    | none => none
    | some info =>
      match pyIntOr info.prompt_eval_count info.prompt_tokens,
            pyIntOr info.eval_count info.completion_tokens with
      | some i, some o => some { input := i, output := o, unit := "TOKENS" }
      | some _, none => none
      | none, _ => none

/-- `inlet` (lines 110-149).  Returns the new state and `some` returned
body, or `none` when the hook raises (`body["messages"]` at line 142 with
no `messages` key; the `model_names` update at lines 128-136 has already
happened then). -/
def inlet (st : PipelineState) (body : Body) (user : Option User)
    (fresh : String) : PipelineState × Option Body :=
  if st.langfuse_on = false then (st, some body)
  else
    let md := body.metadata.getD {}
    let chatId := inletCid md fresh
    let md1 : Metadata := { md with chat_id := some chatId }
    let body1 : Body := { body with metadata := some md1 }
    let prev := lookupA st.model_names chatId
    let mBase : ModelIdentity :=
      match prev with
      | some m => { m with id := body.model }
      | none => { id := body.model, name := none }
    let mNew : ModelIdentity :=
      match md.model_info_name with
      | some n => { mBase with name := some n }
      | none => mBase
    let st1 : PipelineState :=
      { st with model_names := insertA st.model_names chatId mNew }
    match lookupA st1.pending_chats chatId with
    | some _ => (st1, some body1)
    | none =>
      match body.messages with
      | none => (st1, none)
      | some msgs =>
        let pt : PendingTurn :=
          { input := msgs, metadata := md1, user := user, model_id := body.model }
        ({ st1 with pending_chats := insertA st1.pending_chats chatId pt },
          some body1)

/-- Tail of `outlet` after a trace handle is in hand (lines 226-297):
user-input span gated by `_input_logged`, usage extraction (raises via
`body["messages"]` at line 241 when the key is absent), trace output
update, the `metadata["model_id"]`/`["model_name"]` writes, and the
generation record. -/
def outletRest (st : PipelineState) (body : Body) (md : Metadata)
    (cid : String) (userEmail : Option String) (fsid taskName : String)
    (tagsList : List String) (tr : TraceHandle) : PipelineState × Option Body :=
  let logged := st.input_logged.getD []
  let st1 : PipelineState :=
    if cid ∈ logged then st
    else
      { st with
        events := st.events ++ [.inputSpan tr.tid cid (body.messages.getD [])],
        input_logged := some (logged ++ [cid]) }
  match body.messages with
  | none => (st1, none)
  | some msgs =>
    let usage := extractUsage msgs
    let assistantMessage := getLastAssistantMessage msgs
    let cmeta : TraceMeta :=
      { base := md, user_id := pyStrOr2 userEmail "anonymous",
        session_id := fsid, interface := "open-webui", task := taskName }
    let tr1 : TraceHandle :=
      { tr with output := some assistantMessage, meta := cmeta, tags := tagsList }
    let st2 : PipelineState :=
      { st1 with chat_traces := insertA st1.chat_traces cid tr1 }
    let modelId : Option String :=
      match lookupA st2.model_names cid with
      | some mi => mi.id
      | none => body.model
    let modelName : String :=
      match lookupA st2.model_names cid with
      | some mi => mi.name.getD "unknown"
      | none => "unknown"
    let modelValue : Option String :=
      if st2.valves.use_model_name_instead_of_id_for_generation then some modelName
      else modelId
    let md1 : Metadata := { md with model_id := some modelId, model_name := some modelName }
    let st3 : PipelineState :=
      { st2 with events := st2.events ++ [.generation tr1.tid modelValue usage] }
    (st3, some { body with metadata := some md1 })

/-- `outlet` (lines 151-297).  `createOk` is the outcome of the
trace-creation `try` block (lines 204-222): on `false` the `except` path
returns the body after the `finally` pop of the pending turn.  A `none`
body component means the hook raised (`body["messages"]` at line 241). -/
def outlet (st : PipelineState) (body : Body) (user : Option User)
    (createOk : Bool) : PipelineState × Option Body :=
  if st.langfuse_on = false then (st, some body)
  else
    let md := body.metadata.getD {}
    match outletCidMd md with
    | none => (st, some body)
    | some cid =>
      let taskName := md.task.getD "llm_response"
      let tagsList := buildTags st.valves taskName
      let userEmail : Option String := user.bind User.email
      let fsid : String := pyStrOr2 md.session_id cid
      let st1 : PipelineState :=
        match lookupA st.chat_traces cid with
        | some tr =>
          if spanUserIdAttr tr = none ∧ truthyO userEmail then
            { st with chat_traces := eraseA st.chat_traces cid,
                      events := st.events ++ [.traceEnded tr.tid] }
          else st
        | none => st
      match lookupA st1.chat_traces cid with
      | some tr => outletRest st1 body md cid userEmail fsid taskName tagsList tr
      | none =>
        let pending := lookupA st1.pending_chats cid
        let inputMsgs : List Message :=
          match pending with
          | some p => if p.input = [] then body.messages.getD [] else p.input
          | none => body.messages.getD []
        let pendingUserEmail : Option String :=
          pending.bind (fun p => p.user.bind User.email)
        let fue : String := pyStrOr2 userEmail (pyStrOr2 pendingUserEmail "anonymous")
        let tmeta : TraceMeta :=
          { base := md, user_id := fue, session_id := fsid,
            interface := "open-webui", task := taskName }
        if createOk then
          let tid := st1.next_tid
          let tr : TraceHandle :=
            { tid := tid, name := "chat:" ++ cid, input := inputMsgs,
              meta := tmeta, trace_user_id := fue, trace_session_id := fsid,
              tags := tagsList, output := none }
          let st2 : PipelineState :=
            { st1 with
              chat_traces := insertA st1.chat_traces cid tr,
              next_tid := tid + 1,
              events := st1.events ++ [.traceCreated tid cid fue],
              pending_chats := eraseA st1.pending_chats cid }
          outletRest st2 body md cid userEmail fsid taskName tagsList tr
        else
          ({ st1 with pending_chats := eraseA st1.pending_chats cid }, some body)

/-- One host-dispatched hook invocation, for reasoning about event
sequences.  Backend calls succeed along a run (`createOk = true`);
failure of the creation block is exercised by calling `outlet` directly. -/
inductive Ev where
  | inE (body : Body) (user : Option User) (fresh : String)
  | outE (body : Body) (user : Option User)
  deriving Repr

/-- State transition of one event (the returned body is dropped). -/
def stepEv (st : PipelineState) : Ev → PipelineState
  | .inE body user fresh => (inlet st body user fresh).1
  | .outE body user => (outlet st body user true).1

/-- Run a sequence of hook invocations. -/
def runP (st : PipelineState) (es : List Ev) : PipelineState :=
  es.foldl stepEv st

theorem eraseA_cons {α : Type} (kv : String × α) (rest : List (String × α))
    (k : String) :
    eraseA (kv :: rest) k = if kv.1 = k then eraseA rest k else kv :: eraseA rest k := by
  by_cases h : kv.1 = k <;> simp [eraseA, List.filter_cons, h]

theorem lookupA_append {α : Type} (l1 l2 : List (String × α)) (k : String) :
    lookupA (l1 ++ l2) k =
      match lookupA l1 k with
      | some v => some v
      | none => lookupA l2 k := by
  induction l1 with
  | nil => simp [lookupA]
  | cons kv rest ih =>
    by_cases h : kv.1 = k <;> simp [lookupA, h, ih]

theorem lookupA_eraseA_self {α : Type} (m : List (String × α)) (k : String) :
    lookupA (eraseA m k) k = none := by
  induction m with
  | nil => rfl
  | cons kv rest ih =>
    rw [eraseA_cons]
    by_cases h : kv.1 = k <;> simp [h, lookupA, ih]

theorem lookupA_eraseA_ne {α : Type} (m : List (String × α)) (k k2 : String)
    (h : k2 ≠ k) : lookupA (eraseA m k) k2 = lookupA m k2 := by
  induction m with
  | nil => rfl
  | cons kv rest ih =>
    rw [eraseA_cons]
    by_cases hk : kv.1 = k
    · subst hk
      simp [lookupA, Ne.symm h, ih]
    · by_cases hk2 : kv.1 = k2 <;> simp [lookupA, hk, hk2, h, ih]

theorem lookupA_insertA_self {α : Type} (m : List (String × α)) (k : String)
    (v : α) : lookupA (insertA m k v) k = some v := by
  rw [insertA, lookupA_append, lookupA_eraseA_self]
  simp [lookupA]

theorem lookupA_insertA_ne {α : Type} (m : List (String × α)) (k k2 : String)
    (v : α) (h : k2 ≠ k) : lookupA (insertA m k v) k2 = lookupA m k2 := by
  rw [insertA, lookupA_append]
  rw [lookupA_eraseA_ne m k k2 h]
  cases hl : lookupA m k2 <;> simp [lookupA, Ne.symm h]

theorem temp_session_ne_empty (s : String) : "temporary-session-" ++ s ≠ "" := by
  intro h
  have h2 := congrArg String.length h
  simp [String.length_append] at h2
  exact absurd h2.1 (by decide)

/-- C8: for an event whose conversation identifier is `"local"` and whose
metadata carries a (non-empty) session id, the resolved conversation id is
`temporary-session-{session_id}`, and the inbound and outbound hooks
compute the same resolution. -/
theorem c8_local_session_resolution (md : Metadata) (s fresh : String)
    (hc : md.chat_id = some "local") (hs : md.session_id = some s)
    (hne : s ≠ "") :
    inletCid md fresh = "temporary-session-" ++ s ∧
    outletCidMd md = some ("temporary-session-" ++ s) := by
  constructor
  · simp [inletCid, hc, hs, hne]
  · simp [outletCidMd, hc, hs, hne, temp_session_ne_empty s]

theorem c8_local_session_resolution_witness :
    inletCid { chat_id := some "local", session_id := some "s7" } "f" =
        "temporary-session-s7" ∧
    outletCidMd { chat_id := some "local", session_id := some "s7" } =
        some "temporary-session-s7" :=
  c8_local_session_resolution
    { chat_id := some "local", session_id := some "s7" } "s7" "f"
    rfl rfl (by decide)

/-- Metadata agreement on every field except `chat_id`. -/
def mdEqExceptChatId (m m2 : Metadata) : Prop :=
  m2.session_id = m.session_id ∧ m2.task = m.task ∧
  m2.model_info_name = m.model_info_name ∧ m2.model_id = m.model_id ∧
  m2.model_name = m.model_name ∧ m2.rest = m.rest

/-- The returned `metadata` agrees with the received one except that the
`chat_id` key may have been written (an absent metadata dict may also have
been replaced by one holding only `chat_id`). -/
def optMdEqExceptChatId : Option Metadata → Option Metadata → Prop
  | none, none => True
  | none, some m2 => mdEqExceptChatId {} m2
  | some m, some m2 => mdEqExceptChatId m m2
  | some _, none => False

/-- C9: whenever the inbound hook returns a body, that body is unmodified
relative to the input except for the normalized `metadata.chat_id`: the
`messages` list, the `model` field and all other metadata fields are
exactly as received. -/
theorem c9_inlet_frame (st : PipelineState) (body : Body) (user : Option User)
    (fresh : String) (b2 : Body)
    (h : (inlet st body user fresh).2 = some b2) :
    b2.model = body.model ∧ b2.messages = body.messages ∧
    optMdEqExceptChatId body.metadata b2.metadata := by
  unfold inlet at h
  by_cases hon : st.langfuse_on = false
  · simp [hon] at h
    subst h
    refine ⟨rfl, rfl, ?_⟩
    cases body.metadata with
    | none => trivial
    | some m => exact ⟨rfl, rfl, rfl, rfl, rfl, rfl⟩
  · simp [hon] at h
    split at h
    · simp at h
      subst h
      refine ⟨rfl, rfl, ?_⟩
      cases body.metadata with
      | none => exact ⟨rfl, rfl, rfl, rfl, rfl, rfl⟩
      | some m => exact ⟨rfl, rfl, rfl, rfl, rfl, rfl⟩
    · split at h
      · simp at h
      · simp at h
        subst h
        refine ⟨rfl, rfl, ?_⟩
        cases body.metadata with
        | none => exact ⟨rfl, rfl, rfl, rfl, rfl, rfl⟩
        | some m => exact ⟨rfl, rfl, rfl, rfl, rfl, rfl⟩

/-- Default valves, as `__init__` builds them with no environment set. -/
def v0 : Valves := {}

/-- A plain user message. -/
def msgU : Message := { role := "user", content := "hi" }

/-- An assistant reply with both token counts present. -/
def msgA : Message :=
  { role := "assistant", content := "hello",
    usage := some { prompt_eval_count := some 3, eval_count := some 7 } }

/-- An inbound body for conversation `"c"`. -/
def bodyIn : Body :=
  { model := some "m", messages := some [msgU],
    metadata := some { chat_id := some "c" } }

/-- The matching outbound body, last message the assistant's reply. -/
def bodyOut : Body :=
  { model := some "m", messages := some [msgU, msgA],
    metadata := some { chat_id := some "c" } }

theorem c9_inlet_frame_witness :
    bodyIn.model = bodyIn.model ∧ bodyIn.messages = bodyIn.messages ∧
    optMdEqExceptChatId bodyIn.metadata bodyIn.metadata :=
  c9_inlet_frame (initState v0 true) bodyIn none "f" bodyIn rfl

/-- A body with a `messages` key absent (the `model` key present). -/
def bodyNoMsg : Body := { model := some "m", metadata := some { chat_id := some "c" } }

/-- A body with the `model` key absent (`messages` present). -/
def bodyNoModel : Body := { messages := some [msgU], metadata := some { chat_id := some "c" } }

/-- C3 counterexample: with tracing enabled, a body with no `messages` key
makes the inbound hook raise (line 142) and the outbound hook raise
(line 241) instead of returning the body; and a body with no `model` key
does not make the inbound hook skip tracing — it still buffers a
`PendingTurn` for the conversation. -/
theorem c3_missing_fields_counterexample :
    (inlet (initState v0 true) bodyNoMsg none "f").2 = none ∧
    (outlet (initState v0 true) bodyNoMsg none true).2 = none ∧
    lookupA ((inlet (initState v0 true) bodyNoModel none "f").1).pending_chats
      "c" ≠ none :=
  ⟨rfl, rfl, by decide⟩

/-- C3 amended: a missing `model` key is tolerated but does not suppress
tracing (the inbound hook still records model identity and buffers the
turn); a missing `messages` key is not absorbed: the inbound hook raises a
`KeyError` when first buffering the conversation, and the outbound hook
raises one when extracting the assistant message, so the body is not
returned at all. -/
theorem c3_missing_fields_amended (v : Valves) (body body2 : Body)
    (user : Option User) (fresh cid : String) (msgs2 : List Message)
    (hmsg : body.messages = none) (hcid : outletCid body = some cid)
    (hm2 : body2.model = none) (hmsgs2 : body2.messages = some msgs2) :
    (inlet (initState v true) body user fresh).2 = none ∧
    (outlet (initState v true) body user true).2 = none ∧
    lookupA ((inlet (initState v true) body2 user fresh).1).pending_chats
      (inletCid (body2.metadata.getD {}) fresh) ≠ none := by
  unfold outletCid at hcid
  refine ⟨?_, ?_, ?_⟩
  · unfold inlet
    simp [initState, lookupA, hmsg]
  · unfold outlet
    simp [initState, hcid, lookupA, outletRest, hmsg]
  · unfold inlet
    simp [initState, lookupA, hmsgs2, lookupA_insertA_self]

theorem c3_missing_fields_amended_witness :
    (inlet (initState v0 true) bodyNoMsg none "g").2 = none ∧
    (outlet (initState v0 true) bodyNoMsg none true).2 = none ∧
    lookupA ((inlet (initState v0 true) bodyNoModel none "g").1).pending_chats
      (inletCid (bodyNoModel.metadata.getD {}) "g") ≠ none :=
  c3_missing_fields_amended v0 bodyNoMsg bodyNoModel none "g" "c" [msgU]
    rfl rfl rfl rfl

/-- After the post-resolution tail of the outlet, the conversation still has
a handle in the map whenever it had one going in (the tail only rewrites
the handle under the same key, or leaves the map alone on the raise path). -/
theorem outletRest_traces_ne_none (st : PipelineState) (body : Body) (md : Metadata)
    (cid : String) (ue : Option String) (fsid tn : String) (tl : List String)
    (tr : TraceHandle) (h : lookupA st.chat_traces cid ≠ none) :
    lookupA ((outletRest st body md cid ue fsid tn tl tr).1).chat_traces cid ≠ none := by
  unfold outletRest
  cases hm : body.messages with
  | none =>
    simp only [hm]
    split
    · exact h
    · exact h
  | some msgs =>
    simp only [hm]
    simp [lookupA_insertA_self]

/-- Recognizer for trace-end events. -/
def isTraceEnded : BackendEvent → Bool
  | .traceEnded _ => true
  | _ => false

/-- Recognizer for trace creations of one conversation. -/
def isTraceCreatedFor (c : String) : BackendEvent → Bool
  | .traceCreated _ c2 _ => c2 == c
  | _ => false

/-- Recognizer for generation records emitted on one trace. -/
def isGenOn (t : Nat) : BackendEvent → Bool
  | .generation t2 _ _ => t2 == t
  | _ => false

/-- C1 counterexample: after an inbound buffer and two completed outbound
calls for conversation `"c"` (tracing enabled, everything succeeding), a
`TraceHandle` for `"c"` is still in the correlator's map, no trace-end
call was ever made, and the single created trace received two generation
records — the trace is reused across turns rather than undergoing one
create→append→close cycle per outbound call. -/
theorem c1_trace_ended_counterexample :
    (lookupA (runP (initState v0 true)
        [.inE bodyIn none "f", .outE bodyOut none, .outE bodyOut none]).chat_traces
      "c" ≠ none) ∧
    ((runP (initState v0 true)
        [.inE bodyIn none "f", .outE bodyOut none, .outE bodyOut none]).events.filter
      isTraceEnded).length = 0 ∧
    ((runP (initState v0 true)
        [.inE bodyIn none "f", .outE bodyOut none, .outE bodyOut none]).events.filter
      (isTraceCreatedFor "c")).length = 1 ∧
    ((runP (initState v0 true)
        [.inE bodyIn none "f", .outE bodyOut none, .outE bodyOut none]).events.filter
      (isGenOn 0)).length = 2 := by
  decide

/-- C1 amended: the outbound hook never ends the conversation's trace on
completion; whenever the conversation id resolves and the backend calls
succeed, a `TraceHandle` for it remains in the correlator's map after the
call (the trace persists across turns and accumulates one generation per
outbound call; it is discarded only by the mid-conversation
re-authentication branch — and then immediately replaced — or at
shutdown). -/
theorem c1_trace_persists_amended (st : PipelineState) (body : Body)
    (user : Option User) (cid : String) (hon : st.langfuse_on = true)
    (hcid : outletCid body = some cid) :
    lookupA ((outlet st body user true).1).chat_traces cid ≠ none := by
  unfold outletCid at hcid
  unfold outlet
  simp only [hon, hcid, Bool.true_eq_false, if_false]
  rcases hlt : lookupA st.chat_traces cid with _ | tr
  · simp only [hlt]
    apply outletRest_traces_ne_none
    simp [lookupA_insertA_self]
  · simp only [hlt]
    split
    · rename_i tr9 heq
      apply outletRest_traces_ne_none
      simp [heq]
    · apply outletRest_traces_ne_none
      simp [lookupA_insertA_self]

theorem c1_trace_persists_amended_witness :
    lookupA ((outlet (initState v0 true) bodyOut none true).1).chat_traces
      "c" ≠ none :=
  c1_trace_persists_amended (initState v0 true) bodyOut none "c" rfl rfl

/-- The post-resolution tail of the outlet never touches `pending_chats`. -/
theorem outletRest_pending (st : PipelineState) (body : Body) (md : Metadata)
    (cid : String) (ue : Option String) (fsid tn : String) (tl : List String)
    (tr : TraceHandle) :
    ((outletRest st body md cid ue fsid tn tl tr).1).pending_chats = st.pending_chats := by
  unfold outletRest
  cases hm : body.messages with
  | none =>
    simp only [hm]
    split <;> rfl
  | some msgs =>
    simp only [hm]
    split <;> rfl

/-- C2 counterexample: in the run inbound–outbound–inbound–outbound for
conversation `"c"` (anonymous user, tracing enabled, backend succeeding),
the second inbound re-buffers a `PendingTurn` because `inlet` checks only
`pending_chats`, and the second outbound takes the existing-handle branch
which never consumes it — so immediately after that outbound completes,
both a `PendingTurn` and a `TraceHandle` are present for `"c"`. -/
theorem c2_not_both_counterexample :
    lookupA (runP (initState v0 true)
      [.inE bodyIn none "f", .outE bodyOut none, .inE bodyIn none "f",
       .outE bodyOut none]).pending_chats "c" ≠ none ∧
    lookupA (runP (initState v0 true)
      [.inE bodyIn none "f", .outE bodyOut none, .inE bodyIn none "f",
       .outE bodyOut none]).chat_traces "c" ≠ none := by
  decide

/-- C2 amended: the exclusion holds only for an outbound event that runs
the trace-creation path (no `TraceHandle` for the conversation at entry):
after such a call, the `PendingTurn` and the `TraceHandle` are never both
present, whatever the creation outcome.  Once a handle persists across
turns, an intervening inbound re-buffers a `PendingTurn` that a later
outbound does not consume, and both can be present (see the
counterexample). -/
theorem c2_not_both_amended (st : PipelineState) (body : Body)
    (user : Option User) (ok : Bool) (cid : String)
    (hcid : outletCid body = some cid)
    (hno : lookupA st.chat_traces cid = none) :
    lookupA ((outlet st body user ok).1).pending_chats cid = none ∨
    lookupA ((outlet st body user ok).1).chat_traces cid = none := by
  unfold outletCid at hcid
  unfold outlet
  by_cases hon : st.langfuse_on = false
  · simp only [hon, if_true]
    exact Or.inr hno
  · rw [if_neg hon]
    simp only [hcid, hno]
    cases ok with
    | true =>
      left
      rw [if_pos rfl]
      rw [outletRest_pending]
      simp [lookupA_eraseA_self]
    | false =>
      left
      simp [lookupA_eraseA_self]

theorem c2_not_both_amended_witness :
    lookupA ((outlet (initState v0 true) bodyOut none true).1).pending_chats
      "c" = none ∨
    lookupA ((outlet (initState v0 true) bodyOut none true).1).chat_traces
      "c" = none :=
  c2_not_both_amended (initState v0 true) bodyOut none true "c" rfl rfl

/-- C7 counterexample: conversation `"c"` is buffered by an inbound call,
then an outbound call runs whose trace-creation block fails.  The claim
says the `PendingTurn` is left in place for a later attempt; in fact the
`finally` clause (line 222) pops it even on the failure path, so after the
call neither a `PendingTurn` nor a `TraceHandle` exists for `"c"`, though
the buffer was present just before. -/
theorem c7_pending_kept_counterexample :
    lookupA ((outlet (runP (initState v0 true) [.inE bodyIn none "f"])
        bodyOut none false).1).pending_chats "c" = none ∧
    lookupA ((outlet (runP (initState v0 true) [.inE bodyIn none "f"])
        bodyOut none false).1).chat_traces "c" = none ∧
    lookupA (runP (initState v0 true) [.inE bodyIn none "f"]).pending_chats
      "c" ≠ none := by
  decide

/-- C7 amended: the `PendingTurn` is deleted whenever an outbound event
reaches the trace-creation attempt (no handle existed for the
conversation), regardless of whether the backend call succeeds — a failed
creation does not preserve the buffer for a later attempt. -/
theorem c7_pending_deleted_amended (st : PipelineState) (body : Body)
    (user : Option User) (ok : Bool) (cid : String)
    (hon : st.langfuse_on = true) (hcid : outletCid body = some cid)
    (hno : lookupA st.chat_traces cid = none) :
    lookupA ((outlet st body user ok).1).pending_chats cid = none := by
  unfold outletCid at hcid
  unfold outlet
  rw [if_neg (by simp [hon])]
  simp only [hcid, hno]
  cases ok with
  | true =>
    rw [if_pos rfl]
    rw [outletRest_pending]
    simp [lookupA_eraseA_self]
  | false =>
    simp [lookupA_eraseA_self]

theorem c7_pending_deleted_amended_witness :
    lookupA ((outlet (runP (initState v0 true) [.inE bodyIn none "f"])
        bodyOut none false).1).pending_chats "c" = none :=
  c7_pending_deleted_amended (runP (initState v0 true) [.inE bodyIn none "f"])
    bodyOut none false "c" rfl rfl rfl

/-- The post-resolution tail of the outlet only appends to the events
journal. -/
theorem outletRest_events_prefix (st : PipelineState) (body : Body) (md : Metadata)
    (cid : String) (ue : Option String) (fsid tn : String) (tl : List String)
    (tr : TraceHandle) :
    ∃ tail, ((outletRest st body md cid ue fsid tn tl tr).1).events = st.events ++ tail := by
  unfold outletRest
  cases hm : body.messages with
  | none =>
    simp only [hm]
    split
    · exact ⟨[], by simp⟩
    · exact ⟨_, rfl⟩
  | some msgs =>
    simp only [hm]
    split
    · exact ⟨_, rfl⟩
    · exact ⟨_, (List.append_assoc _ _ _)⟩

/-- Events already journalled survive the post-resolution tail. -/
theorem outletRest_events_mem (st : PipelineState) (body : Body) (md : Metadata)
    (cid : String) (ue : Option String) (fsid tn : String) (tl : List String)
    (tr : TraceHandle) (e : BackendEvent) (he : e ∈ st.events) :
    e ∈ ((outletRest st body md cid ue fsid tn tl tr).1).events := by
  obtain ⟨tail, htail⟩ := outletRest_events_prefix st body md cid ue fsid tn tl tr
  rw [htail]
  exact List.mem_append_left _ he

/-- After the post-resolution tail, the conversation's map entry is a handle
with the same creation index and creation-time user attribution as the
handle the tail was given (`update_trace` at line 261 rewrites output,
metadata and tags but not the trace-level user). -/
theorem outletRest_traces_goal (st : PipelineState) (body : Body) (md : Metadata)
    (cid : String) (ue : Option String) (fsid tn : String) (tl : List String)
    (tr : TraceHandle) (P : TraceHandle → Prop)
    (h : lookupA st.chat_traces cid = some tr)
    (hP : ∀ tr2, tr2.tid = tr.tid → tr2.trace_user_id = tr.trace_user_id → P tr2) :
    ∃ tr2, lookupA ((outletRest st body md cid ue fsid tn tl tr).1).chat_traces cid = some tr2 ∧
      P tr2 := by
  unfold outletRest
  cases hm : body.messages with
  | none =>
    simp only [hm]
    split
    · exact ⟨tr, h, hP tr rfl rfl⟩
    · exact ⟨tr, h, hP tr rfl rfl⟩
  | some msgs =>
    simp only [hm]
    exact ⟨_, lookupA_insertA_self _ _ _, hP _ rfl rfl⟩

/-- C4: when a `TraceHandle` exists for the conversation, it was opened
with no known user (its creation-time attribution is the anonymous
placeholder), and the current outbound event carries a user identity, the
existing handle is ended and discarded and a new trace is created
attributed to the authenticated user — the conversation yields two
distinct traces, not one mutated trace.  (The span wrapper exposes no
`user_id` attribute, so `getattr(trace, "user_id", None)` is `None` and
the discard branch at lines 175-184 fires for any authenticated event.) -/
theorem c4_reauth_two_traces (st : PipelineState) (body : Body) (u : User)
    (cid e : String) (tr : TraceHandle)
    (hon : st.langfuse_on = true) (hcid : outletCid body = some cid)
    (htr : lookupA st.chat_traces cid = some tr)
    (hanon : tr.trace_user_id = "anonymous")
    (hemail : u.email = some e) (hne : e ≠ "")
    (htid : tr.tid < st.next_tid) :
    BackendEvent.traceEnded tr.tid ∈ ((outlet st body (some u) true).1).events ∧
    ∃ tr2, lookupA ((outlet st body (some u) true).1).chat_traces cid = some tr2 ∧
      tr2.tid ≠ tr.tid ∧ tr2.trace_user_id = e := by
  unfold outletCid at hcid
  unfold outlet
  rw [if_neg (by simp [hon])]
  simp only [hcid, htr]
  have hcond : spanUserIdAttr tr = none ∧ truthyO ((some u).bind User.email) = true := by
    refine ⟨rfl, ?_⟩
    simp [hemail, truthyO, hne]
  rw [if_pos hcond]
  simp only [lookupA_eraseA_self]
  rw [if_pos (by trivial)]
  constructor
  · apply outletRest_events_mem
    simp
  · apply outletRest_traces_goal
    · exact lookupA_insertA_self _ _ _
    · intro tr2 h1 h2
      refine ⟨?_, ?_⟩
      · rw [h1]
        simp only []
        omega
      · rw [h2]
        simp [hemail, pyStrOr2, hne]

/-- A handle as stored for conversation `"c"` after an anonymous turn. -/
def trAnon : TraceHandle :=
  { tid := 0, name := "chat:c", input := [],
    meta := { base := {}, user_id := "anonymous", session_id := "c",
              interface := "open-webui", task := "llm_response" },
    trace_user_id := "anonymous", trace_session_id := "c",
    tags := ["open-webui"], output := none }

/-- A correlator state holding the anonymous handle for `"c"`. -/
def stAnon : PipelineState :=
  { valves := v0, langfuse_on := true, chat_traces := [("c", trAnon)],
    pending_chats := [], model_names := [], input_logged := some ["c"],
    next_tid := 1, events := [] }

theorem c4_reauth_two_traces_witness :
    BackendEvent.traceEnded trAnon.tid ∈
      ((outlet stAnon bodyOut (some { email := some "u@x" }) true).1).events ∧
    ∃ tr2, lookupA ((outlet stAnon bodyOut
        (some { email := some "u@x" }) true).1).chat_traces "c" = some tr2 ∧
      tr2.tid ≠ trAnon.tid ∧ tr2.trace_user_id = "u@x" :=
  c4_reauth_two_traces stAnon bodyOut { email := some "u@x" } "c" "u@x" trAnon
    rfl rfl rfl rfl rfl (by decide) (by decide)

/-- A list ending in a generation record has that generation last. -/
theorem exists_getLast_gen_append (l : List BackendEvent) (t : Nat)
    (mv : Option String) (u : Option UsageRec) :
    ∃ mv2, (l ++ [BackendEvent.generation t mv u]).getLast? =
      some (BackendEvent.generation t mv2 u) :=
  ⟨mv, by rw [List.getLast?_concat]⟩

/-- Whenever the post-resolution tail returns a body, it is the input body
with `metadata["model_id"]` / `metadata["model_name"]` written from the
`model_names` record (falling back to `body.get("model")` / `"unknown"`,
lines 270-275); `model` and `messages` are untouched. -/
theorem outletRest_body (st : PipelineState) (body : Body) (md : Metadata)
    (cid : String) (ue : Option String) (fsid tn : String) (tl : List String)
    (tr : TraceHandle) (b2 : Body)
    (h : (outletRest st body md cid ue fsid tn tl tr).2 = some b2) :
    b2.model = body.model ∧ b2.messages = body.messages ∧
    b2.metadata = some { md with
      model_id := some (match lookupA st.model_names cid with
        | some mi => mi.id
        | none => body.model),
      model_name := some (match lookupA st.model_names cid with
        | some mi => mi.name.getD "unknown"
        | none => "unknown") } := by
  unfold outletRest at h
  cases hm : body.messages with
  | none =>
    simp only [hm] at h
    simp at h
  | some msgs =>
    rcases hmn : lookupA st.model_names cid with _ | mi <;>
    · simp only [hm, hmn] at h
      simp at h
      subst h
      refine ⟨rfl, by simp [hm], ?_⟩
      simp [apply_ite PipelineState.model_names, hmn]

/-- C10: for an outbound call with tracing enabled in which the
conversation id resolves and the trace is resolved or successfully
created, the returned body keeps its `messages` list unchanged but its
metadata mapping now carries `model_id` and `model_name` taken from the
per-conversation `ModelIdentity` record (`model_name` defaulting to
`"unknown"` when no name was observed) — the outbound hook mutates the
body's metadata beyond chat-id normalization. -/
theorem c10_outlet_metadata_mutation (st : PipelineState) (body : Body)
    (user : Option User) (cid : String) (mi : ModelIdentity) (b2 : Body)
    (hon : st.langfuse_on = true) (hcid : outletCid body = some cid)
    (hmi : lookupA st.model_names cid = some mi)
    (h2 : (outlet st body user true).2 = some b2) :
    b2.messages = body.messages ∧
    ∃ md2, b2.metadata = some md2 ∧ md2.model_id = some mi.id ∧
      md2.model_name = some (mi.name.getD "unknown") := by
  unfold outletCid at hcid
  unfold outlet at h2
  rw [if_neg (by simp [hon])] at h2
  simp only [hcid] at h2
  rcases hlt : lookupA st.chat_traces cid with _ | tr
  · simp only [hlt] at h2
    rw [if_pos (by trivial)] at h2
    obtain ⟨ha, hb, hc⟩ := outletRest_body _ _ _ _ _ _ _ _ _ _ h2
    refine ⟨hb, ?_⟩
    refine ⟨_, hc, ?_, ?_⟩ <;> simp [hmi]
  · simp only [hlt] at h2
    split at h2
    · obtain ⟨ha, hb, hc⟩ := outletRest_body _ _ _ _ _ _ _ _ _ _ h2
      refine ⟨hb, ?_⟩
      refine ⟨_, hc, ?_, ?_⟩ <;>
        simp [apply_ite PipelineState.model_names, hmi]
    · rw [if_pos (by trivial)] at h2
      obtain ⟨ha, hb, hc⟩ := outletRest_body _ _ _ _ _ _ _ _ _ _ h2
      refine ⟨hb, ?_⟩
      refine ⟨_, hc, ?_, ?_⟩ <;>
        simp [apply_ite PipelineState.model_names, hmi]

/-- The body the outbound hook returns for `bodyOut` after `bodyIn` was
seen inbound: metadata gains `model_id` and `model_name`. -/
def bodyOutRet : Body :=
  { model := some "m", messages := some [msgU, msgA],
    metadata := some { chat_id := some "c", model_id := some (some "m"),
                       model_name := some "unknown" } }

theorem c10_outlet_metadata_mutation_witness :
    bodyOutRet.messages = bodyOut.messages ∧
    ∃ md2, bodyOutRet.metadata = some md2 ∧
      md2.model_id = some (ModelIdentity.id { id := some "m", name := none }) ∧
      md2.model_name =
        some ((ModelIdentity.name { id := some "m", name := none }).getD "unknown") :=
  c10_outlet_metadata_mutation (runP (initState v0 true) [.inE bodyIn none "f"])
    bodyOut none "c" { id := some "m", name := none } bodyOutRet rfl rfl rfl rfl

/-- When the outbound body has messages, the last backend event of the
post-resolution tail is the generation record, carrying exactly
`extractUsage` of those messages (lines 277-292). -/
theorem outletRest_last_gen (st : PipelineState) (body : Body) (md : Metadata)
    (cid : String) (ue : Option String) (fsid tn : String) (tl : List String)
    (tr : TraceHandle) (msgs : List Message) (hm : body.messages = some msgs) :
    ∃ mv, ((outletRest st body md cid ue fsid tn tl tr).1).events.getLast? =
      some (.generation tr.tid mv (extractUsage msgs)) := by
  unfold outletRest
  simp only [hm]
  split <;> exact exists_getLast_gen_append _ _ _ _

/-- The code's resolvability of the two token counts: each side resolves
through Python `or` (a present-but-zero primary count falls through to the
fallback field). -/
def codeBothCountsResolvable (messages : List Message) : Bool :=
  match getLastAssistantMessageObj messages with
  | none => false
  | some m =>
    match m.usage with
    | none => false
    | some info =>
      (pyIntOr info.prompt_eval_count info.prompt_tokens).isSome &&
      (pyIntOr info.eval_count info.completion_tokens).isSome

/-- The spec's resolvability condition, following its words — "absent if
either count is missing": a side is resolvable when its primary or
fallback field is present (whatever the value) in the last assistant
message's usage dict. -/
def specBothCountsPresent (messages : List Message) : Bool :=
  match getLastAssistantMessageObj messages with
  | none => false
  | some m =>
    match m.usage with
    | none => false
    | some info =>
      (info.prompt_eval_count.isSome || info.prompt_tokens.isSome) &&
      (info.eval_count.isSome || info.completion_tokens.isSome)

/-- Usage is attached to the generation exactly when both counts resolve
under the code's `or`-fallback rule. -/
theorem extractUsage_isSome (msgs : List Message) :
    (extractUsage msgs).isSome = codeBothCountsResolvable msgs := by
  unfold extractUsage codeBothCountsResolvable
  rcases h1 : getLastAssistantMessageObj msgs with _ | m
  · rfl
  · rcases h2 : m.usage with _ | info
    · simp [h2]
    · rcases h3 : pyIntOr info.prompt_eval_count info.prompt_tokens with _ | i <;>
      rcases h4 : pyIntOr info.eval_count info.completion_tokens with _ | o <;>
      simp [h2, h3, h4]

/-- An assistant reply whose usage dict carries `prompt_eval_count = 0` and
`eval_count = 5` — both counts present, hence spec-resolvable. -/
def msgA0 : Message :=
  { role := "assistant", content := "hello",
    usage := some { prompt_eval_count := some 0, eval_count := some 5 } }

/-- Outbound body whose assistant reply carries the zero prompt count. -/
def bodyOut0 : Body :=
  { model := some "m", messages := some [msgU, msgA0],
    metadata := some { chat_id := some "c" } }

/-- C6 counterexample: both counts are resolvable in the spec's sense
(`prompt_eval_count` present with value `0`, `eval_count` present), yet
the emitted generation record carries no usage — the Python `or` treats
the zero count as missing and the fallback `prompt_tokens` is absent. -/
theorem c6_usage_iff_counterexample :
    specBothCountsPresent [msgU, msgA0] = true ∧
    (runP (initState v0 true) [.outE bodyOut0 none]).events.getLast? =
      some (.generation 0 (some "m") none) := by
  decide

/-- C6 amended: the generation record carries a usage record iff both
counts resolve under the code's falsy-aware `or` rule — the primary field
if non-null and non-zero, else the fallback field, both resolved values
non-null; a zero primary count with no fallback makes usage be omitted
even though the count is present. -/
theorem c6_usage_iff_amended (st : PipelineState) (body : Body)
    (user : Option User) (cid : String) (msgs : List Message)
    (hon : st.langfuse_on = true) (hcid : outletCid body = some cid)
    (hmsgs : body.messages = some msgs) :
    (∃ t mv, ((outlet st body user true).1).events.getLast? =
      some (.generation t mv (extractUsage msgs))) ∧
    (extractUsage msgs).isSome = codeBothCountsResolvable msgs := by
  refine ⟨?_, extractUsage_isSome msgs⟩
  unfold outletCid at hcid
  unfold outlet
  rw [if_neg (by simp [hon])]
  simp only [hcid]
  rcases hlt : lookupA st.chat_traces cid with _ | tr
  · simp only [hlt]
    rw [if_pos (by trivial)]
    exact ⟨_, outletRest_last_gen _ _ _ _ _ _ _ _ _ msgs hmsgs⟩
  · simp only [hlt]
    split
    · exact ⟨_, outletRest_last_gen _ _ _ _ _ _ _ _ _ msgs hmsgs⟩
    · rw [if_pos (by trivial)]
      exact ⟨_, outletRest_last_gen _ _ _ _ _ _ _ _ _ msgs hmsgs⟩

theorem c6_usage_iff_amended_witness :
    (∃ t mv, ((outlet (initState v0 true) bodyOut none true).1).events.getLast? =
      some (.generation t mv (extractUsage [msgU, msgA]))) ∧
    (extractUsage [msgU, msgA]).isSome = codeBothCountsResolvable [msgU, msgA] :=
  c6_usage_iff_amended (initState v0 true) bodyOut none "c" [msgU, msgA]
    rfl rfl rfl

/-- Recognizer for user-input spans of one conversation. -/
def spanFor (c : String) : BackendEvent → Bool
  | .inputSpan _ c2 _ => c2 == c
  | _ => false

/-- How many user-input spans were emitted for conversation `c`. -/
def countSpans (c : String) (evs : List BackendEvent) : Nat :=
  (evs.filter (spanFor c)).length

theorem countSpans_append (c : String) (l1 l2 : List BackendEvent) :
    countSpans c (l1 ++ l2) = countSpans c l1 + countSpans c l2 := by
  simp [countSpans]

theorem countSpans_traceEnded (c : String) (t : Nat) :
    countSpans c [BackendEvent.traceEnded t] = 0 := rfl

theorem countSpans_traceCreated (c : String) (t : Nat) (c2 u : String) :
    countSpans c [BackendEvent.traceCreated t c2 u] = 0 := rfl

theorem countSpans_generation (c : String) (t : Nat) (mv : Option String)
    (u : Option UsageRec) :
    countSpans c [BackendEvent.generation t mv u] = 0 := rfl

theorem countSpans_inputSpan (c : String) (t : Nat) (c2 : String)
    (i : List Message) :
    countSpans c [BackendEvent.inputSpan t c2 i] = if c2 = c then 1 else 0 := by
  by_cases h : c2 = c <;> simp [countSpans, spanFor, h]

/-- The correlator's span bookkeeping: a conversation has exactly one
user-input span in the journal iff it is in the `_input_logged` set, and
none otherwise. -/
def SpanInv (st : PipelineState) : Prop :=
  ∀ c, countSpans c st.events = (if c ∈ st.input_logged.getD [] then 1 else 0)

/-- The post-resolution tail preserves the span bookkeeping: it emits the
user-input span only for a conversation not yet in `_input_logged`, and
records it there in the same step (lines 226-236). -/
theorem outletRest_spanInv (st : PipelineState) (body : Body) (md : Metadata)
    (cid : String) (ue : Option String) (fsid tn : String) (tl : List String)
    (tr : TraceHandle) (hinv : SpanInv st) :
    SpanInv ((outletRest st body md cid ue fsid tn tl tr).1) := by
  unfold outletRest
  cases hm : body.messages with
  | none =>
    simp only [hm]
    split
    · exact hinv
    · rename_i hmem
      intro c
      simp only [countSpans_append, countSpans_inputSpan]
      by_cases hc : cid = c
      · subst hc
        simp [hinv cid, hmem]
      · simp [hinv c, hc, List.mem_append, Ne.symm hc]
  | some msgs =>
    simp only [hm]
    split
    · rename_i hmem
      intro c
      simp only [countSpans_append, countSpans_generation]
      simpa using hinv c
    · rename_i hmem
      intro c
      simp only [countSpans_append, countSpans_generation, countSpans_inputSpan]
      by_cases hc : cid = c
      · subst hc
        simp [hinv cid, hmem]
      · simp [hinv c, hc, List.mem_append, Ne.symm hc]

/-- The inbound hook touches neither the events journal, the
`_input_logged` set, nor the client flag. -/
theorem inlet_events_logged (st : PipelineState) (body : Body)
    (user : Option User) (fresh : String) :
    ((inlet st body user fresh).1).events = st.events ∧
    ((inlet st body user fresh).1).input_logged = st.input_logged ∧
    ((inlet st body user fresh).1).langfuse_on = st.langfuse_on := by
  unfold inlet
  split
  · exact ⟨rfl, rfl, rfl⟩
  · dsimp only
    split
    · exact ⟨rfl, rfl, rfl⟩
    · split
      · exact ⟨rfl, rfl, rfl⟩
      · exact ⟨rfl, rfl, rfl⟩

theorem inlet_spanInv (st : PipelineState) (body : Body) (user : Option User)
    (fresh : String) (hinv : SpanInv st) :
    SpanInv ((inlet st body user fresh).1) := by
  intro c
  obtain ⟨he, hl, _⟩ := inlet_events_logged st body user fresh
  rw [he, hl]
  exact hinv c

theorem outletRest_langfuse (st : PipelineState) (body : Body) (md : Metadata)
    (cid : String) (ue : Option String) (fsid tn : String) (tl : List String)
    (tr : TraceHandle) :
    ((outletRest st body md cid ue fsid tn tl tr).1).langfuse_on = st.langfuse_on := by
  unfold outletRest
  cases hm : body.messages with
  | none =>
    simp only [hm]
    split <;> rfl
  | some msgs =>
    simp only [hm]
    split <;> rfl

/-- The outbound hook preserves the span bookkeeping: the only events it
appends besides the gated user-input span are trace/generation records,
which the span count ignores. -/
theorem outlet_spanInv (st : PipelineState) (body : Body) (user : Option User)
    (ok : Bool) (hinv : SpanInv st) :
    SpanInv ((outlet st body user ok).1) := by
  unfold outlet
  split
  · exact hinv
  · dsimp only
    split
    · exact hinv
    · rename_i cid hcid
      rcases hlt : lookupA st.chat_traces cid with _ | tr <;> simp only [hlt]
      · split
        · apply outletRest_spanInv
          intro c
          simp only [countSpans_append, countSpans_traceCreated]
          simpa using hinv c
        · intro c
          simpa using hinv c
      · split
        · apply outletRest_spanInv
          split
          · intro c
            simp only [countSpans_append, countSpans_traceEnded]
            simpa using hinv c
          · exact hinv
        · split
          · apply outletRest_spanInv
            intro c
            split
            · simp only [countSpans_append, countSpans_traceEnded,
                countSpans_traceCreated]
              simpa using hinv c
            · simp only [countSpans_append, countSpans_traceCreated]
              simpa using hinv c
          · intro c
            split
            · simp only [countSpans_append, countSpans_traceEnded]
              simpa using hinv c
            · simpa using hinv c

theorem spanInv_step (st : PipelineState) (e : Ev) (hinv : SpanInv st) :
    SpanInv (stepEv st e) := by
  cases e with
  | inE body user fresh => exact inlet_spanInv st body user fresh hinv
  | outE body user => exact outlet_spanInv st body user true hinv

theorem spanInv_runP (st : PipelineState) (es : List Ev) (hinv : SpanInv st) :
    SpanInv (runP st es) := by
  induction es generalizing st with
  | nil => exact hinv
  | cons e rest ih => exact ih _ (spanInv_step st e hinv)

theorem spanInv_init (v : Valves) (lfOn : Bool) : SpanInv (initState v lfOn) := by
  intro c
  simp [initState, countSpans]

theorem outlet_langfuse (st : PipelineState) (body : Body) (user : Option User)
    (ok : Bool) :
    ((outlet st body user ok).1).langfuse_on = st.langfuse_on := by
  unfold outlet
  split
  · rfl
  · dsimp only
    split
    · rfl
    · rename_i cid hcid
      rcases hlt : lookupA st.chat_traces cid with _ | tr <;> simp only [hlt]
      · split
        · rw [outletRest_langfuse]
        · rfl
      · split
        · rw [outletRest_langfuse]
          split <;> rfl
        · split
          · rw [outletRest_langfuse]
            split <;> rfl
          · split <;> rfl

theorem stepEv_langfuse (st : PipelineState) (e : Ev) :
    (stepEv st e).langfuse_on = st.langfuse_on := by
  cases e with
  | inE body user fresh => exact (inlet_events_logged st body user fresh).2.2
  | outE body user => exact outlet_langfuse st body user true

theorem runP_langfuse (st : PipelineState) (es : List Ev) :
    (runP st es).langfuse_on = st.langfuse_on := by
  induction es generalizing st with
  | nil => rfl
  | cons e rest ih => exact (ih (stepEv st e)).trans (stepEv_langfuse st e)

theorem countSpans_span_gen_pair (c : String) (t t2 : Nat) (i : List Message)
    (mv : Option String) (u : Option UsageRec) :
    countSpans c [BackendEvent.inputSpan t c i, BackendEvent.generation t2 mv u] = 1 := by
  simp [countSpans, spanFor]

/-- After the post-resolution tail runs for a conversation whose span count
matches its `_input_logged` membership, exactly one user-input span is in
the journal for it. -/
theorem outletRest_count (st : PipelineState) (body : Body) (md : Metadata)
    (cid : String) (ue : Option String) (fsid tn : String) (tl : List String)
    (tr : TraceHandle)
    (hc : countSpans cid st.events = (if cid ∈ st.input_logged.getD [] then 1 else 0)) :
    countSpans cid ((outletRest st body md cid ue fsid tn tl tr).1).events = 1 := by
  unfold outletRest
  cases hm : body.messages with
  | none =>
    simp only [hm]
    split
    · rename_i hmem
      simp [hc, hmem]
    · rename_i hmem
      simp [countSpans_append, countSpans_inputSpan, hc, hmem]
  | some msgs =>
    simp only [hm]
    split
    · rename_i hmem
      simp [countSpans_append, countSpans_generation, hc, hmem]
    · rename_i hmem
      simp [countSpans_append, countSpans_generation, countSpans_inputSpan,
        hc, hmem, countSpans_span_gen_pair]

/-- Any resolved outbound call with tracing enabled and successful backend
calls leaves exactly one user-input span for the conversation. -/
theorem outlet_span_once (st : PipelineState) (body : Body) (user : Option User)
    (cid : String) (hinv : SpanInv st) (hon : st.langfuse_on = true)
    (hcid : outletCid body = some cid) :
    countSpans cid ((outlet st body user true).1).events = 1 := by
  unfold outletCid at hcid
  unfold outlet
  rw [if_neg (by simp [hon])]
  simp only [hcid]
  rcases hlt : lookupA st.chat_traces cid with _ | tr <;> simp only [hlt]
  · rw [if_pos (by trivial)]
    apply outletRest_count
    simp only [countSpans_append, countSpans_traceCreated]
    simpa using hinv cid
  · split
    · apply outletRest_count
      split
      · simp only [countSpans_append, countSpans_traceEnded]
        simpa using hinv cid
      · exact hinv cid
    · rw [if_pos (by trivial)]
      apply outletRest_count
      split
      · simp only [countSpans_append, countSpans_traceEnded,
          countSpans_traceCreated]
        simpa using hinv cid
      · simp only [countSpans_append, countSpans_traceCreated]
        simpa using hinv cid

/-- C5: over every run of inbound/outbound events from a fresh correlator
with tracing enabled (backend calls succeeding), at most one user-input
span is ever emitted per conversation id; and after any outbound call that
resolves to that conversation id, exactly one has been emitted — so the
span is emitted on the first outbound processing for the id and never
re-emitted on later outbound calls. -/
theorem c5_input_span_once (v : Valves) (es : List Ev) (cid : String) :
    countSpans cid (runP (initState v true) es).events ≤ 1 ∧
    ∀ body user, outletCid body = some cid →
      countSpans cid ((outlet (runP (initState v true) es) body user
        true).1).events = 1 := by
  have hinv : SpanInv (runP (initState v true) es) :=
    spanInv_runP _ es (spanInv_init v true)
  constructor
  · rw [hinv cid]
    split <;> simp
  · intro body user hcid
    exact outlet_span_once _ body user cid hinv
      ((runP_langfuse (initState v true) es).trans rfl) hcid

theorem c5_input_span_once_witness :
    countSpans "c" (runP (initState v0 true)
      [.inE bodyIn none "f", .outE bodyOut none]).events ≤ 1 ∧
    countSpans "c" ((outlet (runP (initState v0 true)
      [.inE bodyIn none "f", .outE bodyOut none]) bodyOut none true).1).events = 1 :=
  ⟨(c5_input_span_once v0 [.inE bodyIn none "f", .outE bodyOut none] "c").1,
   (c5_input_span_once v0 [.inE bodyIn none "f", .outE bodyOut none] "c").2
     bodyOut none rfl⟩
